import Mathlib

/-!
Shallow embedding of the expense-tracker store (src/main.py).

The store is a single SQLite table `expenses(id, date, amount, category,
subcategory, note)` with `id INTEGER PRIMARY KEY AUTOINCREMENT` and
`category TEXT NOT NULL`.  We model the table as a list of records kept in
rowid (insertion) order together with the AUTOINCREMENT counter `nextId`.
SQL `REAL` amounts are modelled as exact rationals; text comparison
(`date BETWEEN ? AND ?`, `ORDER BY date DESC`) is the lexicographic order
on `String`.  Python `None` arguments are modelled as `Option.none`; in
particular the SQLite `NOT NULL` constraint rejects only a null `category`, not the
empty string.  Each tool returns the shape of the JSON value the Python
function builds; `JVal` mirrors those dict/list shapes for claims about
the result envelope.
-/

namespace ExpenseTracker

/-- Strict lexicographic order on character lists: the semantics of
the SQLite default BINARY comparison of TEXT values (bytewise comparison of
UTF-8, which coincides with code-point order). -/
def lexLt : List Char → List Char → Bool
  | [], [] => false
  | [], _ :: _ => true
  | _ :: _, [] => false
  | a :: as, b :: bs => decide (a < b) || (a == b && lexLt as bs)

/-- Strict text comparison, as used by `ORDER BY date DESC`. -/
def strLt (a b : String) : Bool := lexLt a.data b.data

/-- Inclusive text comparison, as used by `date BETWEEN ? AND ?`. -/
def strLe (a b : String) : Bool := !(strLt b a)

structure Record where
  id : Nat
  date : String
  amount : ℚ
  category : String
  subcategory : String
  note : String
deriving DecidableEq

structure Store where
  records : List Record
  nextId : Nat
deriving DecidableEq

/-- Well-formedness maintained by the SQLite schema: every stored rowid is
below the AUTOINCREMENT counter, and rowids are unique. -/
def WF (s : Store) : Prop :=
  (∀ r ∈ s.records, r.id < s.nextId) ∧ (s.records.map Record.id).Nodup

instance (s : Store) : Decidable (WF s) := by
  unfold WF; exact inferInstance

/-! ## add_expense -/

inductive AddResult where
  | success (id : Nat)
  | error (message : String)
deriving DecidableEq

/-- Tool add_expense (src/main.py:33-46): INSERT of the five fields.  The
`category TEXT NOT NULL` column rejects a null category (the caught
IntegrityError becomes an error dict); any string, including `""`,
is accepted.  On success the new rowid is returned and the counter bumps. -/
def addExpense (s : Store) (date : String) (amount : ℚ)
    (category : Option String) (subcategory : String) (noteVal : String) :
    AddResult × Store :=
  match category with
  | none => (.error ("NOT NULL constraint failed: expenses.category"), s)
  | some c =>
      (.success s.nextId,
       { records := s.records ++ [⟨s.nextId, date, amount, c, subcategory, noteVal⟩],
         nextId := s.nextId + 1 })

/-! ## get_expense -/

inductive GetResult where
  | success (expense : Record)
  | error (message : String)
deriving DecidableEq

/-- Tool get_expense (src/main.py:89-102): SELECT ... WHERE id = ?, fetchone. -/
def getExpense (s : Store) (eid : Nat) : GetResult :=
  match s.records.find? (fun r => r.id == eid) with
  | some r => .success r
  | none => .error ("Expense ID " ++ toString eid ++ " not found")

/-! ## list_expenses -/

/-- Test for `date BETWEEN ? AND ?` : inclusive lexicographic range. -/
def inRange (d1 d2 : String) (r : Record) : Bool :=
  strLe d1 r.date && strLe r.date d2

/-- Preorder of `ORDER BY date DESC, id DESC` : `a` may precede `b`. -/
def listOrd (a b : Record) : Prop :=
  strLt b.date a.date = true ∨ (b.date = a.date ∧ b.id ≤ a.id)

instance : DecidableRel listOrd := fun a b => by
  unfold listOrd; exact inferInstance

/-- Tool list_expenses (src/main.py:49-65): range filter, sorted by
date descending then id descending. -/
def listExpenses (s : Store) (d1 d2 : String) : List Record :=
  List.insertionSort listOrd (s.records.filter (inRange d1 d2))

/-! ## summarize -/

structure SummaryRow where
  category : String
  total_amount : ℚ
  count : Nat
deriving DecidableEq

/-- Preorder of `ORDER BY total_amount DESC` on groups. -/
def rowOrd (g h : SummaryRow) : Prop :=
  h.total_amount ≤ g.total_amount

instance : DecidableRel rowOrd := fun g h => by
  unfold rowOrd; exact inferInstance

/-- The rows scanned by `summarize` (src/main.py:71-80): date range plus,
when the Python-truthy `if category:` guard fires (a non-null, non-empty
string), the `AND category = ?` equality filter. -/
def matchingRecords (s : Store) (d1 d2 : String) (category : Option String) :
    List Record :=
  match category with
  | some c =>
      if c = "" then s.records.filter (inRange d1 d2)
      else (s.records.filter (inRange d1 d2)).filter (fun r => r.category == c)
  | none => s.records.filter (inRange d1 d2)

/-- One `GROUP BY category` output row: SUM(amount) and COUNT(*) over the
matching records of that category. -/
def mkRow (rs : List Record) (c : String) : SummaryRow :=
  ⟨c, ((rs.filter (fun r => r.category == c)).map Record.amount).sum,
   (rs.filter (fun r => r.category == c)).length⟩

/-- Tool summarize (src/main.py:68-86): group the matching records by exact
category string, one row per distinct category, ordered by total descending. -/
def summarize (s : Store) (d1 d2 : String) (category : Option String) :
    List SummaryRow :=
  List.insertionSort rowOrd
    ((((matchingRecords s d1 d2 category).map Record.category).dedup).map
      (mkRow (matchingRecords s d1 d2 category)))

/-! ## edit_expense -/

inductive EditResult where
  | success (updated_id : Nat)
  | error (message : String)
deriving DecidableEq

/-- The SET clause of `edit_expense`: each supplied field overwrites, each
omitted (`None`) field keeps its prior value; `id` is never touched. -/
def applyEdit (d : Option String) (a : Option ℚ) (c sub nt : Option String)
    (r : Record) : Record :=
  { r with
    date := d.getD r.date
    amount := a.getD r.amount
    category := c.getD r.category
    subcategory := sub.getD r.subcategory
    note := nt.getD r.note }

/-- Tool edit_expense (src/main.py:105-134): with no field supplied the call
fails before touching the store; otherwise UPDATE ... WHERE id = ?, and a
zero rowcount (no such id) is reported as not-found with the store
unchanged. -/
def editExpense (s : Store) (eid : Nat) (d : Option String) (a : Option ℚ)
    (c sub nt : Option String) : EditResult × Store :=
  if d.isNone && a.isNone && c.isNone && sub.isNone && nt.isNone then
    (.error ("No fields to update"), s)
  else if s.records.any (fun r => r.id == eid) then
    (.success eid,
     { s with records :=
        s.records.map (fun r => if r.id == eid then applyEdit d a c sub nt r else r) })
  else
    (.error ("Expense ID " ++ toString eid ++ " not found"), s)

/-! ## delete_expense -/

inductive DeleteResult where
  | success (deleted_id : Nat)
  | error (message : String)
deriving DecidableEq

/-- Tool delete_expense (src/main.py:137-146): DELETE ... WHERE id = ?; a zero
rowcount is reported as not-found. -/
def deleteExpense (s : Store) (eid : Nat) : DeleteResult × Store :=
  if s.records.any (fun r => r.id == eid) then
    (.success eid, { s with records := s.records.filter (fun r => !(r.id == eid)) })
  else
    (.error ("Expense ID " ++ toString eid ++ " not found"), s)

/-! ## init_db -/

/-- Function init_db (src/main.py:13-28) on an existing table: insert the sentinel
self-test row (category `test`, consuming one AUTOINCREMENT id), then
run `DELETE FROM expenses WHERE category = ...`, which removes every row
whose category is exactly `test`, the sentinel included. -/
def initDb (s : Store) : Store :=
  let s1 : Store :=
    { records := s.records ++ [⟨s.nextId, "2000-01-01", 0, "test", "", ""⟩],
      nextId := s.nextId + 1 }
  { s1 with records := s1.records.filter (fun r => !(r.category == "test")) }

/-! ## JSON result shapes -/

inductive JVal where
  | jstr (s : String)
  | jnum (q : ℚ)
  | jint (n : Int)
  | jarr (xs : List JVal)
  | jobj (kvs : List (String × JVal))

/-- Does the returned JSON value carry the uniform envelope: a top-level
object with a `"status"` key? -/
def isStatusShaped : JVal → Bool
  | .jobj kvs => kvs.any (fun kv => kv.fst == "status")
  | _ => false

def recordJson (r : Record) : JVal :=
  .jobj [("id", .jint r.id), ("date", .jstr r.date), ("amount", .jnum r.amount),
         ("category", .jstr r.category), ("subcategory", .jstr r.subcategory),
         ("note", .jstr r.note)]

def addResultJson : AddResult → JVal
  | .success i => .jobj [("status", .jstr ("success")), ("id", .jint i)]
  | .error m => .jobj [("status", .jstr ("error")), ("message", .jstr m)]

def getResultJson : GetResult → JVal
  | .success r => .jobj [("status", .jstr ("success")), ("expense", recordJson r)]
  | .error m => .jobj [("status", .jstr ("error")), ("message", .jstr m)]

def editResultJson : EditResult → JVal
  | .success i => .jobj [("status", .jstr ("success")), ("updated_id", .jint i)]
  | .error m => .jobj [("status", .jstr ("error")), ("message", .jstr m)]

def deleteResultJson : DeleteResult → JVal
  | .success i => .jobj [("status", .jstr ("success")), ("deleted_id", .jint i)]
  | .error m => .jobj [("status", .jstr ("error")), ("message", .jstr m)]

/-- Successful `list_expenses` returns the bare JSON array of row dicts
(src/main.py:63). -/
def listResultJson (rs : List Record) : JVal :=
  .jarr (rs.map recordJson)

def summaryRowJson (g : SummaryRow) : JVal :=
  .jobj [("category", .jstr g.category), ("total_amount", .jnum g.total_amount),
         ("count", .jint g.count)]

/-- Successful `summarize` returns the bare JSON array of group dicts
(src/main.py:84). -/
def summarizeResultJson (gs : List SummaryRow) : JVal :=
  .jarr (gs.map summaryRowJson)

/-! ## Operation sequences (for id-reuse claims) -/

inductive Op where
  | add (date : String) (amount : ℚ) (category : Option String) (sub nt : String)
  | get (eid : Nat)
  | edit (eid : Nat) (d : Option String) (a : Option ℚ) (c sub nt : Option String)
  | del (eid : Nat)
  | list (d1 d2 : String)
  | summ (d1 d2 : String) (c : Option String)

/-- The store after one tool call (read-only calls leave it unchanged). -/
def applyOp (s : Store) : Op → Store
  | .add d a c sub nt => (addExpense s d a c sub nt).2
  | .get _ => s
  | .edit eid d a c sub nt => (editExpense s eid d a c sub nt).2
  | .del eid => (deleteExpense s eid).2
  | .list _ _ => s
  | .summ _ _ _ => s

/-- The ids handed out by the successful `add` calls while running a
sequence of tool calls from a given store. -/
def addedIds : Store → List Op → List Nat
  | _, [] => []
  | s, op :: ops =>
      (match op with
       | .add d a c sub nt =>
           match (addExpense s d a c sub nt).1 with
           | .success i => [i]
           | .error _ => []
       | _ => []) ++ addedIds (applyOp s op) ops

/-! ## Order lemmas for the text comparison -/

theorem lexLt_irrefl : ∀ l : List Char, lexLt l l = false
  | [] => rfl
  | a :: as => by simp [lexLt, lexLt_irrefl as]

theorem lexLt_asymm : ∀ {l1 l2 : List Char},
    lexLt l1 l2 = true → lexLt l2 l1 = false
  | [], [], h => by simp [lexLt] at h
  | [], _ :: _, _ => rfl
  | _ :: _, [], h => by simp [lexLt] at h
  | a :: as, b :: bs, h => by
      simp only [lexLt, Bool.or_eq_true, Bool.and_eq_true, decide_eq_true_eq,
        beq_iff_eq] at h
      rcases h with h | ⟨rfl, h⟩
      · simp [lexLt, not_lt_of_lt h, ne_of_gt h]
      · simp [lexLt, lexLt_asymm h]

theorem lexLt_connex : ∀ {l1 l2 : List Char},
    lexLt l1 l2 = false → lexLt l2 l1 = false → l1 = l2
  | [], [], _, _ => rfl
  | [], _ :: _, h, _ => by simp [lexLt] at h
  | _ :: _, [], _, h => by simp [lexLt] at h
  | a :: as, b :: bs, h1, h2 => by
      simp only [lexLt, Bool.or_eq_false_iff, Bool.and_eq_false_iff,
        decide_eq_false_iff_not, beq_eq_false_iff_ne, ne_eq] at h1 h2
      have hab : a = b := le_antisymm (not_lt.mp h2.1) (not_lt.mp h1.1)
      subst hab
      rcases h1.2 with h1' | h1'
      · exact absurd rfl h1'
      · rcases h2.2 with h2' | h2'
        · exact absurd rfl h2'
        · rw [lexLt_connex h1' h2']

theorem lexLt_trans : ∀ {l1 l2 l3 : List Char},
    lexLt l1 l2 = true → lexLt l2 l3 = true → lexLt l1 l3 = true
  | [], _ :: _, _ :: _, _, _ => rfl
  | [], [], _, h, _ => by simp [lexLt] at h
  | [], _ :: _, [], _, h => by simp [lexLt] at h
  | _ :: _, [], _, h, _ => by simp [lexLt] at h
  | _ :: _, _ :: _, [], _, h => by simp [lexLt] at h
  | a :: as, b :: bs, c :: cs, h1, h2 => by
      simp only [lexLt, Bool.or_eq_true, Bool.and_eq_true, decide_eq_true_eq,
        beq_iff_eq] at h1 h2 ⊢
      rcases h1 with h1 | ⟨rfl, h1⟩
      · rcases h2 with h2 | ⟨rfl, h2⟩
        · exact Or.inl (lt_trans h1 h2)
        · exact Or.inl h1
      · rcases h2 with h2 | ⟨rfl, h2⟩
        · exact Or.inl h2
        · exact Or.inr ⟨rfl, lexLt_trans h1 h2⟩

theorem str_eq_of_data_eq {a b : String} (h : a.data = b.data) : a = b :=
  String.toList_inj.mp h

theorem strLt_connex {a b : String} (h1 : strLt a b = false)
    (h2 : strLt b a = false) : a = b :=
  str_eq_of_data_eq (lexLt_connex h1 h2)

instance : IsTotal Record listOrd :=
  ⟨fun a b => by
    unfold listOrd
    by_cases hba : strLt b.date a.date = true
    · exact Or.inl (Or.inl hba)
    · by_cases hab : strLt a.date b.date = true
      · exact Or.inr (Or.inl hab)
      · simp only [Bool.not_eq_true] at hba hab
        have hd : a.date = b.date := strLt_connex hab hba
        rcases Nat.le_total b.id a.id with hle | hle
        · exact Or.inl (Or.inr ⟨hd.symm, hle⟩)
        · exact Or.inr (Or.inr ⟨hd, hle⟩)⟩

instance : IsTrans Record listOrd :=
  ⟨fun a b c hab hbc => by
    unfold listOrd at hab hbc ⊢
    rcases hab with hab | ⟨hab, hab2⟩
    · rcases hbc with hbc | ⟨hbc, hbc2⟩
      · exact Or.inl (lexLt_trans hbc hab)
      · exact Or.inl (by rw [hbc]; exact hab)
    · rcases hbc with hbc | ⟨hbc, hbc2⟩
      · exact Or.inl (by rw [← hab]; exact hbc)
      · exact Or.inr ⟨hbc.trans hab, Nat.le_trans hbc2 hab2⟩⟩

instance : IsTotal SummaryRow rowOrd :=
  ⟨fun g h => le_total h.total_amount g.total_amount⟩

instance : IsTrans SummaryRow rowOrd :=
  ⟨fun _ _ _ hab hbc => le_trans hbc hab⟩

/-! ## Helper lemmas -/

theorem find?_append_none {α : Type} {p : α → Bool} :
    ∀ {l1 : List α} (l2 : List α), l1.find? p = none →
      (l1 ++ l2).find? p = l2.find? p
  | [], _, _ => rfl
  | a :: l1, l2, h => by
      cases hpa : p a
      · rw [List.find?_cons_of_neg _ (by simp [hpa])] at h
        rw [List.cons_append, List.find?_cons_of_neg _ (by simp [hpa])]
        exact find?_append_none l2 h
      · rw [List.find?_cons_of_pos _ hpa] at h
        exact absurd h (by simp)

/-- Claim C1: a record written by `add` is returned verbatim by `get` on the new
id: date, amount, category, subcategory and note all equal the submitted
values (with `""` submitted when the caller omitted subcategory or note). -/
theorem claim1_add_get_roundtrip (s : Store) (hwf : WF s) (d : String) (a : ℚ)
    (cat sub nt : String) :
    (addExpense s d a (some cat) sub nt).1 = .success s.nextId ∧
    getExpense (addExpense s d a (some cat) sub nt).2 s.nextId =
      .success ⟨s.nextId, d, a, cat, sub, nt⟩ := by
  refine ⟨rfl, ?_⟩
  have hnone : s.records.find? (fun r => r.id == s.nextId) = none := by
    rw [List.find?_eq_none]
    intro r hr
    simp only [beq_iff_eq]
    exact Nat.ne_of_lt (hwf.1 r hr)
  have hfind :
      ((addExpense s d a (some cat) sub nt).2).records.find?
        (fun r => r.id == s.nextId) = some ⟨s.nextId, d, a, cat, sub, nt⟩ := by
    show (s.records ++ [(⟨s.nextId, d, a, cat, sub, nt⟩ : Record)]).find? _ = _
    rw [find?_append_none _ hnone]
    exact List.find?_cons_of_pos _ (by simp)
  unfold getExpense
  rw [hfind]

/-- Witness for C1 at a concrete store and input. -/
theorem claim1_witness :
    (addExpense ⟨[], 1⟩ "2024-01-05" 10 (some "Food") "" "").1 = .success 1 ∧
    getExpense (addExpense ⟨[], 1⟩ "2024-01-05" 10 (some "Food") "" "").2 1 =
      .success ⟨1, "2024-01-05", 10, "Food", "", ""⟩ :=
  claim1_add_get_roundtrip ⟨[], 1⟩ (by decide) "2024-01-05" 10 "Food" "" ""

/-- Claim C4 fails on the code: adding with `category = ""` succeeds (the SQLite
`NOT NULL` accepts the empty string) and inserts a row. -/
theorem claim4_counterexample :
    (addExpense ⟨[], 1⟩ "2024-01-01" 1 (some "") "" "").1 = .success 1 ∧
    ((addExpense ⟨[], 1⟩ "2024-01-01" 1 (some "") "" "").2).records =
      [⟨1, "2024-01-01", 1, "", "", ""⟩] :=
  ⟨rfl, rfl⟩

/-- Claim C4 amended: `add` with the empty-string category succeeds and inserts
the row; the schema rejects only a null category, which fails with an
error and inserts nothing. -/
theorem claim4_amended_empty_category (s : Store) (d : String) (a : ℚ)
    (sub nt : String) :
    ((addExpense s d a (some "") sub nt).1 = .success s.nextId ∧
     (addExpense s d a (some "") sub nt).2.records =
       s.records ++ [⟨s.nextId, d, a, "", sub, nt⟩]) ∧
    ((addExpense s d a none sub nt).1 =
       .error ("NOT NULL constraint failed: expenses.category") ∧
     (addExpense s d a none sub nt).2 = s) :=
  ⟨⟨rfl, rfl⟩, rfl, rfl⟩

/-- Claim C9 fails on the code: a successful `list_expenses` returns a bare JSON
array with no `"status"` marker. -/
theorem claim9_counterexample :
    isStatusShaped (listResultJson (listExpenses ⟨[], 1⟩ "2024-01-01" "2024-12-31")) =
      false :=
  rfl

/-- Claim C9 amended: `add`, `get`, `edit` and `delete` always return an object
carrying the `"status"` marker, but successful `list` and `summarize`
return a bare array of results without it. -/
theorem claim9_amended_result_shapes :
    (∀ s d a c sub nt, isStatusShaped (addResultJson (addExpense s d a c sub nt).1) = true) ∧
    (∀ s eid, isStatusShaped (getResultJson (getExpense s eid)) = true) ∧
    (∀ s eid d a c sub nt,
       isStatusShaped (editResultJson (editExpense s eid d a c sub nt).1) = true) ∧
    (∀ s eid, isStatusShaped (deleteResultJson (deleteExpense s eid).1) = true) ∧
    (∀ s d1 d2, isStatusShaped (listResultJson (listExpenses s d1 d2)) = false) ∧
    (∀ s d1 d2 c, isStatusShaped (summarizeResultJson (summarize s d1 d2 c)) = false) := by
  refine ⟨?_, ?_, ?_, ?_, ?_, ?_⟩
  · intro s d a c sub nt; cases (addExpense s d a c sub nt).1 <;> rfl
  · intro s eid; cases getExpense s eid <;> rfl
  · intro s eid d a c sub nt; cases (editExpense s eid d a c sub nt).1 <;> rfl
  · intro s eid; cases (deleteExpense s eid).1 <;> rfl
  · intro s d1 d2; rfl
  · intro s d1 d2 c; rfl

/-- Claim C10: initialization deletes every row whose category is exactly
`test` (user rows included) and leaves rows of any other category in
place. -/
theorem claim10_init_deletes_test_rows (s : Store) :
    (initDb s).records = s.records.filter (fun r => !(r.category == "test")) ∧
    (∀ r ∈ s.records, r.category = "test" → r ∉ (initDb s).records) ∧
    (∀ r ∈ s.records, r.category ≠ "test" → r ∈ (initDb s).records) := by
  have hrec : (initDb s).records =
      s.records.filter (fun r => !(r.category == "test")) := by
    unfold initDb
    simp [List.filter_append]
  refine ⟨hrec, ?_, ?_⟩
  · intro r _ hcat hmem
    rw [hrec] at hmem
    have := List.of_mem_filter hmem
    simp [hcat] at this
  · intro r hr hcat
    rw [hrec]
    exact List.mem_filter.mpr ⟨hr, by simp [hcat]⟩

/-- Claim C6: on an id that no stored record has, `get`, `edit` (with at least
one field supplied) and `delete` all fail with the not-found error and
leave the store unchanged. -/
theorem claim6_missing_id_not_found (s : Store) (eid : Nat)
    (h : ∀ r ∈ s.records, r.id ≠ eid)
    (d : Option String) (a : Option ℚ) (c sub nt : Option String)
    (hf : (d.isSome || a.isSome || c.isSome || sub.isSome || nt.isSome) = true) :
    getExpense s eid = .error ("Expense ID " ++ toString eid ++ " not found") ∧
    editExpense s eid d a c sub nt =
      (.error ("Expense ID " ++ toString eid ++ " not found"), s) ∧
    deleteExpense s eid =
      (.error ("Expense ID " ++ toString eid ++ " not found"), s) := by
  have hany : s.records.any (fun r => r.id == eid) = false := by
    rw [List.any_eq_false]
    intro r hr
    simp [h r hr]
  have hfind : s.records.find? (fun r => r.id == eid) = none := by
    rw [List.find?_eq_none]
    intro r hr
    simp [h r hr]
  refine ⟨?_, ?_, ?_⟩
  · unfold getExpense
    rw [hfind]
  · have hguard :
        (d.isNone && a.isNone && c.isNone && sub.isNone && nt.isNone) = false := by
      cases d <;> cases a <;> cases c <;> cases sub <;> cases nt <;> simp_all
    unfold editExpense
    rw [hguard, hany]
    simp
  · unfold deleteExpense
    rw [hany]
    simp

/-- Witness for C6 at a concrete store and id. -/
theorem claim6_witness :
    getExpense ⟨[⟨1, "2024-01-05", 10, "Food", "", ""⟩], 2⟩ 7 =
      .error ("Expense ID " ++ toString 7 ++ " not found") ∧
    editExpense ⟨[⟨1, "2024-01-05", 10, "Food", "", ""⟩], 2⟩ 7
        none (some 3) none none none =
      (.error ("Expense ID " ++ toString 7 ++ " not found"),
        ⟨[⟨1, "2024-01-05", 10, "Food", "", ""⟩], 2⟩) ∧
    deleteExpense ⟨[⟨1, "2024-01-05", 10, "Food", "", ""⟩], 2⟩ 7 =
      (.error ("Expense ID " ++ toString 7 ++ " not found"),
        ⟨[⟨1, "2024-01-05", 10, "Food", "", ""⟩], 2⟩) :=
  claim6_missing_id_not_found ⟨[⟨1, "2024-01-05", 10, "Food", "", ""⟩], 2⟩ 7
    (by decide) none (some 3) none none none (by decide)

/-- Claim C7: a successful `edit(id, amount := X)` succeeds, rewrites exactly the
amount of the matching record (all of its other fields and every other record
untouched), keeps the id counter, and in general `edit` applies exactly
the supplied fields to the matching record. -/
theorem claim7_edit_amount_frame (s : Store) (eid : Nat) (x : ℚ)
    (h : s.records.any (fun r => r.id == eid) = true) :
    (editExpense s eid none (some x) none none none).1 = .success eid ∧
    (editExpense s eid none (some x) none none none).2.records =
      s.records.map (fun r => if r.id == eid then { r with amount := x } else r) ∧
    (editExpense s eid none (some x) none none none).2.nextId = s.nextId ∧
    (∀ r ∈ s.records, (r.id == eid) = false →
       r ∈ (editExpense s eid none (some x) none none none).2.records) ∧
    (∀ (d : Option String) (a : Option ℚ) (c sub nt : Option String),
       (d.isSome || a.isSome || c.isSome || sub.isSome || nt.isSome) = true →
       (editExpense s eid d a c sub nt).2.records =
         s.records.map (fun r => if r.id == eid then applyEdit d a c sub nt r else r)) := by
  have hbr : editExpense s eid none (some x) none none none =
      (.success eid,
       { s with records := s.records.map (fun r => if r.id == eid then { r with amount := x } else r) }) := by
    unfold editExpense
    rw [h]
    simp [applyEdit]
  refine ⟨by rw [hbr], by rw [hbr], by rw [hbr], ?_, ?_⟩
  · intro r hr hne
    rw [hbr]
    have hfix : (fun r => if r.id == eid then { r with amount := x } else r) r = r := by
      simp [hne]
    exact hfix ▸ List.mem_map_of_mem _ hr
  · intro d a c sub nt hf
    have hguard :
        (d.isNone && a.isNone && c.isNone && sub.isNone && nt.isNone) = false := by
      cases d <;> cases a <;> cases c <;> cases sub <;> cases nt <;> simp_all
    unfold editExpense
    rw [hguard, h]
    simp

/-- Witness for C7 at a concrete store, id and amount. -/
theorem claim7_witness :
    (editExpense ⟨[⟨1, "2024-01-05", 10, "Food", "Snacks", "n"⟩], 2⟩ 1
        none (some 3) none none none).1 = .success 1 ∧
    (editExpense ⟨[⟨1, "2024-01-05", 10, "Food", "Snacks", "n"⟩], 2⟩ 1
        none (some 3) none none none).2.records =
      [⟨1, "2024-01-05", 10, "Food", "Snacks", "n"⟩].map
        (fun r => if r.id == 1 then { r with amount := 3 } else r) :=
  ⟨(claim7_edit_amount_frame ⟨[⟨1, "2024-01-05", 10, "Food", "Snacks", "n"⟩], 2⟩ 1 3
      (by decide)).1,
   (claim7_edit_amount_frame ⟨[⟨1, "2024-01-05", 10, "Food", "Snacks", "n"⟩], 2⟩ 1 3
      (by decide)).2.1⟩

/-- Claim C2: `list(d1, d2)` returns exactly the records whose date lies in the
inclusive lexicographic range `[d1, d2]` (as a permutation/membership
characterisation), ordered by date descending with ties broken by id
descending, and yields `[]` (not an error) when nothing matches. -/
theorem claim2_list_range_sorted (s : Store) (d1 d2 : String) (hwf : WF s) :
    List.Perm (listExpenses s d1 d2) (s.records.filter (inRange d1 d2)) ∧
    (∀ r : Record, r ∈ listExpenses s d1 d2 ↔
       r ∈ s.records ∧ strLe d1 r.date = true ∧ strLe r.date d2 = true) ∧
    (listExpenses s d1 d2).Pairwise
      (fun a b => strLt b.date a.date = true ∨ (b.date = a.date ∧ b.id < a.id)) ∧
    ((∀ r ∈ s.records, inRange d1 d2 r = false) → listExpenses s d1 d2 = []) := by
  have hperm : List.Perm (listExpenses s d1 d2) (s.records.filter (inRange d1 d2)) :=
    List.perm_insertionSort listOrd _
  refine ⟨hperm, ?_, ?_, ?_⟩
  · intro r
    rw [hperm.mem_iff, List.mem_filter]
    simp [inRange]
  · have hsorted : (listExpenses s d1 d2).Pairwise listOrd :=
      List.sorted_insertionSort listOrd _
    have hnodup : ((listExpenses s d1 d2).map Record.id).Nodup := by
      have h1 : ((s.records.filter (inRange d1 d2)).map Record.id).Nodup :=
        hwf.2.sublist ((List.filter_sublist _).map Record.id)
      exact ((hperm.map Record.id).nodup_iff).mpr h1
    have hne : (listExpenses s d1 d2).Pairwise (fun a b => a.id ≠ b.id) :=
      List.pairwise_map.mp hnodup
    refine (hsorted.and hne).imp ?_
    rintro a b ⟨hab, hne2⟩
    rcases hab with hlt | ⟨hdeq, hle⟩
    · exact Or.inl hlt
    · exact Or.inr ⟨hdeq, lt_of_le_of_ne hle (Ne.symm hne2)⟩
  · intro hall
    have hnil : s.records.filter (inRange d1 d2) = [] := by
      rw [List.filter_eq_nil_iff]
      intro r hr
      simp [hall r hr]
    unfold listExpenses
    rw [hnil]
    rfl

/-- Witness for C2 at the concrete three-record scenario of the spec. -/
theorem claim2_witness :
    List.Perm
      (listExpenses ⟨[⟨1, "2024-01-05", 10, "Food", "", ""⟩,
                      ⟨2, "2024-01-10", 11 / 2, "Food", "", ""⟩,
                      ⟨3, "2024-02-01", 100, "Travel", "", ""⟩], 4⟩
        "2024-01-01" "2024-01-31")
      ((⟨[⟨1, "2024-01-05", 10, "Food", "", ""⟩,
          ⟨2, "2024-01-10", 11 / 2, "Food", "", ""⟩,
          ⟨3, "2024-02-01", 100, "Travel", "", ""⟩], 4⟩ : Store).records.filter
        (inRange "2024-01-01" "2024-01-31")) :=
  (claim2_list_range_sorted
    ⟨[⟨1, "2024-01-05", 10, "Food", "", ""⟩,
      ⟨2, "2024-01-10", 11 / 2, "Food", "", ""⟩,
      ⟨3, "2024-02-01", 100, "Travel", "", ""⟩], 4⟩
    "2024-01-01" "2024-01-31" (by decide)).1

/-- Claim C3: `summarize(d1, d2)` with no category filter yields one group per
distinct category among the date-matching records (as a permutation of the
deduplicated category list), with the total of each group the sum of the
matching amounts and its count the number of matching records, ordered by
total descending; no matching record yields the empty sequence. -/
theorem claim3_summarize_groups (s : Store) (d1 d2 : String) :
    List.Perm ((summarize s d1 d2 none).map SummaryRow.category)
      (((matchingRecords s d1 d2 none).map Record.category).dedup) ∧
    (∀ g ∈ summarize s d1 d2 none,
       g.total_amount = (((matchingRecords s d1 d2 none).filter
           (fun r => r.category == g.category)).map Record.amount).sum ∧
       g.count = ((matchingRecords s d1 d2 none).filter
           (fun r => r.category == g.category)).length) ∧
    (summarize s d1 d2 none).Pairwise
      (fun g h => h.total_amount ≤ g.total_amount) ∧
    (matchingRecords s d1 d2 none = [] → summarize s d1 d2 none = []) := by
  have hperm : List.Perm (summarize s d1 d2 none)
      ((((matchingRecords s d1 d2 none).map Record.category).dedup).map
        (mkRow (matchingRecords s d1 d2 none))) :=
    List.perm_insertionSort rowOrd _
  refine ⟨?_, ?_, ?_, ?_⟩
  · have h1 := hperm.map SummaryRow.category
    rw [List.map_map] at h1
    have h2 : (SummaryRow.category ∘ mkRow (matchingRecords s d1 d2 none)) = id := rfl
    rw [h2, List.map_id] at h1
    exact h1
  · intro g hg
    have hmem : g ∈ (((matchingRecords s d1 d2 none).map Record.category).dedup).map
        (mkRow (matchingRecords s d1 d2 none)) := hperm.mem_iff.mp hg
    rcases List.mem_map.mp hmem with ⟨c, _, rfl⟩
    exact ⟨rfl, rfl⟩
  · exact List.sorted_insertionSort rowOrd _
  · intro h0
    unfold summarize
    rw [h0]
    rfl

theorem length_dedup_le_one {l : List String} {c : String}
    (h : ∀ x ∈ l, x = c) : l.dedup.length ≤ 1 := by
  rcases hd : l.dedup with _ | ⟨x, _ | ⟨y, t⟩⟩
  · simp
  · simp
  · have hnd := List.nodup_dedup l
    rw [hd] at hnd
    have hx : x = c := h x (List.mem_dedup.mp (by rw [hd]; exact List.mem_cons_self _ _))
    have hy : y = c :=
      h y (List.mem_dedup.mp (by rw [hd]; exact List.mem_cons_of_mem _ (List.mem_cons_self _ _)))
    rw [List.nodup_cons] at hnd
    exact absurd (by rw [hx, hy]; exact List.mem_cons_self _ _) hnd.1

/-- Claim C5 fails on the code: an empty-string filter is Python-falsy, so
`summarize` applies no category filter at all and can return two groups. -/
theorem claim5_counterexample :
    (summarize ⟨[⟨1, "2024-01-05", 10, "Food", "", ""⟩,
                 ⟨2, "2024-01-06", 5, "Travel", "", ""⟩], 3⟩
       "2024-01-01" "2024-01-31" (some "")).length = 2 := by
  unfold summarize
  rw [List.length_insertionSort, List.length_map]
  decide

/-- Claim C5 amended: for every non-empty category filter `C`, `summarize`
returns at most one group whose category equals `C` exactly; an
empty-string filter is treated as no filter. -/
theorem claim5_amended_nonempty_filter (s : Store) (d1 d2 c : String)
    (hc : c ≠ "") :
    (summarize s d1 d2 (some c)).length ≤ 1 ∧
    ∀ g ∈ summarize s d1 d2 (some c), g.category = c := by
  have hall : ∀ x ∈ (matchingRecords s d1 d2 (some c)).map Record.category, x = c := by
    intro x hx
    rcases List.mem_map.mp hx with ⟨r, hr, rfl⟩
    simp only [matchingRecords] at hr
    rw [if_neg hc] at hr
    have := List.of_mem_filter hr
    simpa using this
  constructor
  · unfold summarize
    rw [List.length_insertionSort, List.length_map]
    exact length_dedup_le_one hall
  · intro g hg
    unfold summarize at hg
    rw [List.mem_insertionSort] at hg
    rcases List.mem_map.mp hg with ⟨x, hx, rfl⟩
    exact hall x (List.mem_dedup.mp hx)

/-- Witness for the amended C5 at a concrete store and filter. -/
theorem claim5_witness :
    (summarize ⟨[⟨1, "2024-01-05", 10, "Food", "", ""⟩], 2⟩
       "2024-01-01" "2024-01-31" (some "Food")).length ≤ 1 :=
  (claim5_amended_nonempty_filter ⟨[⟨1, "2024-01-05", 10, "Food", "", ""⟩], 2⟩
    "2024-01-01" "2024-01-31" "Food" (by decide)).1

theorem editExpense_nextId (s : Store) (eid : Nat) (d : Option String)
    (a : Option ℚ) (c sub nt : Option String) :
    (editExpense s eid d a c sub nt).2.nextId = s.nextId := by
  unfold editExpense
  split
  · rfl
  · split <;> rfl

theorem deleteExpense_nextId (s : Store) (eid : Nat) :
    (deleteExpense s eid).2.nextId = s.nextId := by
  unfold deleteExpense
  split <;> rfl

theorem applyOp_nextId_mono (s : Store) (op : Op) :
    s.nextId ≤ (applyOp s op).nextId := by
  cases op with
  | add d a c sub nt =>
      cases c
      · exact Nat.le_refl _
      · exact Nat.le_succ _
  | get eid => exact Nat.le_refl _
  | edit eid d a c sub nt =>
      exact Nat.le_of_eq (editExpense_nextId s eid d a c sub nt).symm
  | del eid => exact Nat.le_of_eq (deleteExpense_nextId s eid).symm
  | list d1 d2 => exact Nat.le_refl _
  | summ d1 d2 c => exact Nat.le_refl _

theorem addedIds_lower : ∀ (ops : List Op) (s : Store),
    ∀ i ∈ addedIds s ops, s.nextId ≤ i := by
  intro ops
  induction ops with
  | nil => intro s i hi; exact absurd hi (List.not_mem_nil i)
  | cons op ops ih =>
      intro s i hi
      simp only [addedIds] at hi
      rw [List.mem_append] at hi
      rcases hi with hi | hi
      · cases op with
        | add d a c sub nt =>
            cases c with
            | none => simp [addExpense] at hi
            | some cat =>
                have hieq : i = s.nextId := by simpa [addExpense] using hi
                exact Nat.le_of_eq hieq.symm
        | get eid => simp at hi
        | edit eid d a c sub nt => simp at hi
        | del eid => simp at hi
        | list d1 d2 => simp at hi
        | summ d1 d2 c => simp at hi
      · exact Nat.le_trans (applyOp_nextId_mono s op) (ih (applyOp s op) i hi)

theorem addedIds_pairwise : ∀ (ops : List Op) (s : Store),
    (addedIds s ops).Pairwise (fun i j => i < j) := by
  intro ops
  induction ops with
  | nil => intro s; exact List.Pairwise.nil
  | cons op ops ih =>
      intro s
      cases op with
      | add d a c sub nt =>
          cases c with
          | none => exact ih _
          | some cat =>
              refine List.pairwise_cons.mpr ⟨?_, ih _⟩
              intro j hj
              have h1 := addedIds_lower ops
                (applyOp s (Op.add d a (some cat) sub nt)) j hj
              exact Nat.lt_of_succ_le h1
      | get eid => exact ih _
      | edit eid d a c sub nt => exact ih _
      | del eid => exact ih _
      | list d1 d2 => exact ih _
      | summ d1 d2 c => exact ih _

/-- Claim C8: after a successful `delete(id)`, `get(id)` fails with the
not-found error, no later `add` in any sequence of operations ever hands
out that id again (AUTOINCREMENT never reuses rowids), and the ids handed
out by successive `add` calls are strictly increasing. -/
theorem claim8_ids_never_reused (s : Store) (eid : Nat) (hwf : WF s)
    (hmem : s.records.any (fun r => r.id == eid) = true) :
    (deleteExpense s eid).1 = .success eid ∧
    getExpense (deleteExpense s eid).2 eid =
      .error ("Expense ID " ++ toString eid ++ " not found") ∧
    (∀ ops : List Op, ∀ i ∈ addedIds (deleteExpense s eid).2 ops, eid < i) ∧
    (∀ ops : List Op, (addedIds s ops).Pairwise (fun i j => i < j)) := by
  have hres : deleteExpense s eid =
      (.success eid,
       { s with records := s.records.filter (fun r => !(r.id == eid)) }) := by
    unfold deleteExpense
    rw [hmem]
    rfl
  refine ⟨by rw [hres], ?_, ?_, fun ops => addedIds_pairwise ops s⟩
  · rw [hres]
    unfold getExpense
    have hfind : (s.records.filter (fun r => !(r.id == eid))).find?
        (fun r => r.id == eid) = none := by
      rw [List.find?_eq_none]
      intro r hr
      have := List.of_mem_filter hr
      simp only [Bool.not_eq_true'] at this
      simp [this]
    rw [hfind]
  · intro ops i hi
    have h2 := addedIds_lower ops (deleteExpense s eid).2 i hi
    rw [hres] at h2
    have h3 : eid < s.nextId := by
      rw [List.any_eq_true] at hmem
      rcases hmem with ⟨r, hr, hid⟩
      rw [beq_iff_eq] at hid
      exact hid ▸ hwf.1 r hr
    exact Nat.lt_of_lt_of_le h3 h2

/-- Witness for C8 at a concrete store and id. -/
theorem claim8_witness :
    (deleteExpense ⟨[⟨1, "2024-01-05", 10, "Food", "", ""⟩], 2⟩ 1).1 =
      .success 1 ∧
    getExpense (deleteExpense ⟨[⟨1, "2024-01-05", 10, "Food", "", ""⟩], 2⟩ 1).2 1 =
      .error ("Expense ID " ++ toString 1 ++ " not found") :=
  ⟨(claim8_ids_never_reused ⟨[⟨1, "2024-01-05", 10, "Food", "", ""⟩], 2⟩ 1
      (by decide) (by decide)).1,
   (claim8_ids_never_reused ⟨[⟨1, "2024-01-05", 10, "Food", "", ""⟩], 2⟩ 1
      (by decide) (by decide)).2.1⟩

end ExpenseTracker
